import Mathlib

/-!
Verification of the n8n MCP gateway (`src/routes/mcp.py`).

The file shallowly embeds the module's request-handling functions:
`init_config`, `authenticate_request`, `make_n8n_request`,
`handle_mcp_request`, `handle_tools_list`, `handle_tool_call`,
`handle_create_workflow`, `handle_list_workflows`, `handle_get_workflow`
and `health_check`.  JSON values are a small inductive type; the backend
(`requests` calls against the n8n REST API) is an explicit parameter
mapping each outbound call to a response or a transport error, and every
handler additionally returns the ordered list of backend calls it issued.
Python-level operations used by the source (`in` membership, subscripting,
`dict.get`, truthiness, `str()`, iteration, `len`) are embedded with their
Python semantics, including which exceptions they raise.
-/

namespace N8n

/-- A JSON value (Python object as handled by Flask/`requests`:
`None`, `bool`, `int`, `str`, `list`, `dict`). -/
inductive Json where
  | null : Json
  | bool : Bool → Json
  | num : Int → Json
  | str : String → Json
  | arr : List Json → Json
  | obj : List (String × Json) → Json

/-- A single-quote character, used when rendering Python messages. -/
def sq : String := String.singleton (Char.ofNat 39)

/-- Python type name of a value, as it appears in error messages. -/
def pyTypeName : Json → String
  | .null => "NoneType"
  | .bool _ => "bool"
  | .num _ => "int"
  | .str _ => "str"
  | .arr _ => "list"
  | .obj _ => "dict"

/-- First binding of key `k` in a Python dict (assoc list). -/
def dictFind (kvs : List (String × Json)) (k : String) : Option Json :=
  match kvs.find? (fun kv => kv.1 == k) with
  | some kv => some kv.2
  | none => none

/-- Python `dict.get(k, default)`. -/
def dictGet (kvs : List (String × Json)) (k : String) (d : Json) : Json :=
  (dictFind kvs k).getD d

/-- Python truthiness of a value (`if x:`). -/
def Json.isTruthy : Json → Bool
  | .null => false
  | .bool b => b
  | .num n => n != 0
  | .str s => !(s == "")
  | .arr xs => !xs.isEmpty
  | .obj kvs => !kvs.isEmpty

/-- Python `x == "s"` for a literal string right operand. -/
def jsonEqStr (j : Json) (s : String) : Bool :=
  match j with
  | .str t => t == s
  | _ => false

/-- Whether the character list `pat` occurs contiguously in `s`
(Python substring containment). -/
def listIsInfixOf : List Char → List Char → Bool
  | pat, [] => pat.isEmpty
  | pat, c :: rest => pat.isPrefixOf (c :: rest) || listIsInfixOf pat rest

/-- Python `pat in s` for strings: substring containment. -/
def strContains (s pat : String) : Bool :=
  listIsInfixOf pat.toList s.toList

/-- Python `k in x` for a string key `k`: key membership for dicts,
element equality for lists, substring test for strings; raises
`TypeError` on non-iterable values. -/
def pyIn (k : String) : Json → Except String Bool
  | .obj kvs => .ok (dictFind kvs k).isSome
  | .arr xs => .ok (xs.any (fun x => jsonEqStr x k))
  | .str s => .ok (strContains s k)
  | j => .error ("argument of type " ++ sq ++ pyTypeName j ++ sq ++ " is not iterable")

/-- Python `x[k]` for a string key `k`: dict lookup; `TypeError` on
lists/strings subscripted with a string, and on non-subscriptable values. -/
def pyIndexStr (j : Json) (k : String) : Except String Json :=
  match j with
  | .obj kvs =>
    match dictFind kvs k with
    | some v => .ok v
    | none => .error (sq ++ k ++ sq)
  | .arr _ => .error "list indices must be integers or slices, not str"
  | .str _ => .error "string indices must be integers"
  | j => .error (sq ++ pyTypeName j ++ sq ++ " object is not subscriptable")

/-- Python iteration (`for x in j`): lists yield elements, dicts their
keys, strings their characters; other values raise `TypeError`. -/
def pyIterate : Json → Except String (List Json)
  | .arr xs => .ok xs
  | .obj kvs => .ok (kvs.map (fun kv => .str kv.1))
  | .str s => .ok (s.toList.map (fun c => .str (String.singleton c)))
  | j => .error (sq ++ pyTypeName j ++ sq ++ " object is not iterable")

/-- Python `len(j)`; raises `TypeError` on values without a length. -/
def pyLen : Json → Except String Nat
  | .arr xs => .ok xs.length
  | .obj kvs => .ok kvs.length
  | .str s => .ok s.length
  | j => .error ("object of type " ++ sq ++ pyTypeName j ++ sq ++ " has no len()")

/-- Message of the `AttributeError` raised by calling `.get` on a
non-dict value. -/
def attrErrGet (j : Json) : String :=
  sq ++ pyTypeName j ++ sq ++ " object has no attribute " ++ sq ++ "get" ++ sq

mutual

/-- Python `repr()` of a value, used by `str()` on containers. -/
def pyRepr : Json → String
  | .null => "None"
  | .bool true => "True"
  | .bool false => "False"
  | .num n => toString n
  | .str s => sq ++ s ++ sq
  | .arr xs => "[" ++ String.intercalate ", " (pyReprList xs) ++ "]"
  | .obj kvs => "\x7b" ++ String.intercalate ", " (pyReprObj kvs) ++ "\x7d"

/-- Renders the elements of a Python list for `repr`. -/
def pyReprList : List Json → List String
  | [] => []
  | x :: xs => pyRepr x :: pyReprList xs

/-- Renders the bindings of a Python dict for `repr`. -/
def pyReprObj : List (String × Json) → List String
  | [] => []
  | kv :: kvs => (sq ++ kv.1 ++ sq ++ ": " ++ pyRepr kv.2) :: pyReprObj kvs

end

/-- Python `str()` of a value, as interpolated by f-strings. -/
def pyStr : Json → String
  | .str s => s
  | j => pyRepr j

mutual

/-- Whether the integer `n` occurs anywhere in a JSON value (used to
check that a response carries no numeric error code). -/
def jsonHasNum (n : Int) : Json → Bool
  | .num m => m == n
  | .arr xs => jsonHasNumList n xs
  | .obj kvs => jsonHasNumObj n kvs
  | _ => false

/-- List companion of `jsonHasNum`. -/
def jsonHasNumList (n : Int) : List Json → Bool
  | [] => false
  | x :: xs => jsonHasNum n x || jsonHasNumList n xs

/-- Dict companion of `jsonHasNum`. -/
def jsonHasNumObj (n : Int) : List (String × Json) → Bool
  | [] => false
  | kv :: kvs => jsonHasNum n kv.2 || jsonHasNumObj n kvs

end

/-- Keys of a JSON object, in order. -/
def jsonKeys : Json → List String
  | .obj kvs => kvs.map (fun kv => kv.1)
  | _ => []

/-- Binding of key `k` in a JSON object, if any. -/
def jsonFind (j : Json) (k : String) : Option Json :=
  match j with
  | .obj kvs => dictFind kvs k
  | _ => none

/-! ### Configuration (module globals and `init_config`) -/

/-- The environment variables the module reads (`os.getenv`):
`none` when the variable is unset. -/
structure Env where
  n8nApiUrlVar : Option String
  n8nApiKeyVar : Option String
  authTokenVar : Option String

/-- The module-level configuration globals `N8N_API_URL`, `N8N_API_KEY`
and `AUTH_TOKEN`. -/
structure Config where
  n8nApiUrl : Option String
  n8nApiKey : Option String
  authToken : Option String

/-- The module globals at import time: all three are `None`. -/
def initialConfig : Config := ⟨none, none, none⟩

/-- Embeds `init_config`: re-reads the three environment variables,
defaulting only the URL. -/
def init_config (env : Env) : Config :=
  ⟨some (env.n8nApiUrlVar.getD "http://n8n:5678"), env.n8nApiKeyVar, env.authTokenVar⟩

/-- Python truthiness of an optional string (`if not x`): `None` and the
empty string are falsy. -/
def optTruthy : Option String → Bool
  | none => false
  | some s => !(s == "")

/-! ### Authentication -/

/-- Strips the optional `Bearer ` prefix from an `Authorization` header
value, as `authenticate_request` does (`startswith` plus a 7-character
slice, expressed on the character list). -/
def stripBearer (h : String) : String :=
  if "Bearer ".toList.isPrefixOf h.toList then String.mk (h.toList.drop 7) else h

/-- Embeds `authenticate_request`: false when the header is missing or
falsy, when no token is configured, or when the (prefix-stripped) header
differs from the token. -/
def authenticate_request (authToken : Option String) (authHeader : Option String) : Bool :=
  if !(optTruthy authHeader) || !(optTruthy authToken) then false
  else stripBearer (authHeader.getD "") == authToken.getD ""

/-! ### Backend client (`make_n8n_request` over `requests`) -/

/-- One outbound HTTP call to the n8n backend: the verb, the endpoint
path appended to `/api/v1`, and the JSON body sent (only POST/PUT send
one). -/
structure BackendCall where
  method : String
  endpoint : String
  data : Option Json

/-- A backend HTTP response: status code, reason phrase, raw body text
and the parsed JSON body. -/
structure HttpResponse where
  statusCode : Nat
  reason : String
  text : String
  body : Json

/-- The backend as a function: each call either gets a response or a
transport-level error (`requests.exceptions.RequestException`). -/
def Backend : Type := BackendCall → Except String HttpResponse

/-- Target URL built by `make_n8n_request`. -/
def urlOf (cfg : Config) (endpoint : String) : String :=
  cfg.n8nApiUrl.getD "None" ++ "/api/v1" ++ endpoint

/-- Message of the `requests.HTTPError` raised by
`Response.raise_for_status`: `some` exactly for statuses 400–599, and it
carries the status, reason and URL — not the response body text. -/
def http_error_msg (status : Nat) (reason url : String) : Option String :=
  if 400 ≤ status ∧ status < 500 then
    some (toString status ++ " Client Error: " ++ reason ++ " for url: " ++ url)
  else if 500 ≤ status ∧ status < 600 then
    some (toString status ++ " Server Error: " ++ reason ++ " for url: " ++ url)
  else none

/-- Outcome of one issued request: re-raise a transport error, raise
`HTTPError` for statuses 400–599 (`raise_for_status`), otherwise return
the parsed JSON body. -/
def requestOutcome (res : Except String HttpResponse) (url : String) : Except String Json :=
  match res with
  | .error e => .error e
  | .ok resp =>
    match http_error_msg resp.statusCode resp.reason url with
    | some msg => .error msg
    | none => .ok resp.body

/-- Embeds `make_n8n_request`: fails fast when `N8N_API_KEY` is not
configured, sends the JSON body only for POST/PUT, converts statuses
400–599 into a raised `HTTPError` and re-raises transport errors.
Returns the outcome (`.ok` parsed body / `.error` exception message)
together with the backend calls issued. -/
def make_n8n_request (cfg : Config) (backend : Backend) (method endpoint : String)
    (data : Option Json) : Except String Json × List BackendCall :=
  if !(optTruthy cfg.n8nApiKey) then
    (.error "N8N_API_KEY not configured", [])
  else
    if method == "GET" || method == "POST" || method == "PUT" || method == "DELETE" then
      let sent : Option Json := if method == "POST" || method == "PUT" then data else none
      (requestOutcome (backend ⟨method, endpoint, sent⟩) (urlOf cfg endpoint),
       [⟨method, endpoint, sent⟩])
    else (.error ("Unsupported HTTP method: " ++ method), [])

/-! ### Flask responses and tool handlers -/

/-- A Flask response: HTTP status and JSON body (`jsonify`). -/
structure FlaskResponse where
  status : Nat
  body : Json

/-- The `{content: [{type: "text", text: t}]}` body every tool handler
returns. -/
def contentBody (t : String) : Json :=
  .obj [("content", .arr [.obj [("type", .str "text"), ("text", .str t)]])]

/-- The fixed `settings` object of every created workflow. -/
def settingsJson : Json :=
  .obj [("executionOrder", .str "v1"),
        ("saveDataErrorExecution", .str "all"),
        ("saveDataSuccessExecution", .str "all"),
        ("saveManualExecutions", .bool true),
        ("saveExecutionProgress", .bool true)]

/-- The workflow-creation payload built by `handle_create_workflow`:
exactly the keys `name`, `nodes`, `connections`, `settings`, with the
documented defaults; `active` is never included. -/
def createPayload (args : List (String × Json)) : Json :=
  .obj [("name", dictGet args "name" (.str "Untitled Workflow")),
        ("nodes", dictGet args "nodes" (.arr [])),
        ("connections", dictGet args "connections" (.obj [])),
        ("settings", settingsJson)]

/-- The 500 content-block failure body of `handle_create_workflow`. -/
def failCreateBody (e : String) : Json :=
  contentBody ("Failed to create workflow: " ++ e)

/-- The success response of `handle_create_workflow`: reads
`workflow_result.get(id, unknown)` — raises `AttributeError` (mapped to
the 500 failure body) when the backend JSON is not a dict. -/
def createSuccessResp (name : Json) (wf : Json) : FlaskResponse :=
  match wf with
  | .obj kvs =>
    ⟨200, contentBody ("Successfully created workflow " ++ sq ++ pyStr name ++ sq ++
      " with ID: " ++ pyStr (dictGet kvs "id" (.str "unknown")))⟩
  | other => ⟨500, failCreateBody (attrErrGet other)⟩

/-- Embeds `handle_create_workflow`: builds the payload, POSTs it, then
— only when `active` is truthy and the creation response contains an
`id` — PUTs `{active: true}` to the item endpoint, swallowing any
failure of that PUT. -/
def handle_create_workflow (cfg : Config) (backend : Backend) (arguments : Json) :
    FlaskResponse × List BackendCall :=
  match arguments with
  | .obj args =>
    let name := dictGet args "name" (.str "Untitled Workflow")
    let should_activate := dictGet args "active" (.bool false)
    match make_n8n_request cfg backend "POST" "/workflows" (some (createPayload args)) with
    | (.error e, calls) => (⟨500, failCreateBody e⟩, calls)
    | (.ok wf, calls) =>
      if should_activate.isTruthy then
        match pyIn "id" wf with
        | .error e => (⟨500, failCreateBody e⟩, calls)
        | .ok false => (createSuccessResp name wf, calls)
        | .ok true =>
          match pyIndexStr wf "id" with
          | .error e => (⟨500, failCreateBody e⟩, calls)
          | .ok idv =>
            match make_n8n_request cfg backend "PUT" ("/workflows/" ++ pyStr idv)
                (some (.obj [("active", .bool true)])) with
            | (.ok wf2, calls2) => (createSuccessResp name wf2, calls ++ calls2)
            | (.error _, calls2) => (createSuccessResp name wf, calls ++ calls2)
      else (createSuccessResp name wf, calls)
  | other => (⟨500, failCreateBody (attrErrGet other)⟩, [])

/-- Projection of one workflow summary applied by
`handle_list_workflows`; `.get` on a non-dict element raises. -/
def projectWorkflow (w : Json) : Except String (List (String × Json)) :=
  match w with
  | .obj kvs =>
    .ok [("id", dictGet kvs "id" .null),
         ("name", dictGet kvs "name" .null),
         ("active", dictGet kvs "active" (.bool false)),
         ("createdAt", dictGet kvs "createdAt" .null),
         ("updatedAt", dictGet kvs "updatedAt" .null)]
  | other => .error (attrErrGet other)

/-- One listing line: `- <name> (ID: <id>, Active: <active>)`. -/
def workflowLine (w : List (String × Json)) : String :=
  "- " ++ pyStr (dictGet w "name" .null) ++ " (ID: " ++ pyStr (dictGet w "id" .null) ++
    ", Active: " ++ pyStr (dictGet w "active" .null) ++ ")"

/-- The success text of `handle_list_workflows`: a count line followed
by one line per workflow, newline-joined. -/
def listText (ws : List (List (String × Json))) : String :=
  "Found " ++ toString ws.length ++ " workflows:\n" ++
    String.intercalate "\n" (ws.map workflowLine)

/-- The 500 content-block failure body of `handle_list_workflows`. -/
def failListBody (e : String) : Json :=
  contentBody ("Failed to list workflows: " ++ e)

/-- Embeds `handle_list_workflows`: GETs the collection endpoint,
iterates `workflows[data]` when the `data` key is present (an absent key
leaves the list empty) and renders the summary text. -/
def handle_list_workflows (cfg : Config) (backend : Backend) :
    FlaskResponse × List BackendCall :=
  match make_n8n_request cfg backend "GET" "/workflows" none with
  | (.error e, calls) => (⟨500, failListBody e⟩, calls)
  | (.ok workflows, calls) =>
    match pyIn "data" workflows with
    | .error e => (⟨500, failListBody e⟩, calls)
    | .ok false => (⟨200, contentBody (listText [])⟩, calls)
    | .ok true =>
      match pyIndexStr workflows "data" with
      | .error e => (⟨500, failListBody e⟩, calls)
      | .ok datav =>
        match pyIterate datav with
        | .error e => (⟨500, failListBody e⟩, calls)
        | .ok items =>
          match items.mapM projectWorkflow with
          | .error e => (⟨500, failListBody e⟩, calls)
          | .ok plist => (⟨200, contentBody (listText plist)⟩, calls)

/-- The 500 content-block failure body of `handle_get_workflow`. -/
def failGetBody (e : String) : Json :=
  contentBody ("Failed to get workflow: " ++ e)

/-- Detail text rendered by `handle_get_workflow` from the backend's
workflow JSON; raises when it is not a dict or its `nodes` has no
length. -/
def getDetailText (wf : Json) : Except String String :=
  match wf with
  | .obj kvs =>
    match pyLen (dictGet kvs "nodes" (.arr [])) with
    | .error e => .error e
    | .ok n =>
      .ok ("Workflow " ++ sq ++ pyStr (dictGet kvs "name" (.str "Unknown")) ++ sq ++
        " details:\n" ++
        "ID: " ++ pyStr (dictGet kvs "id" .null) ++ "\n" ++
        "Active: " ++ pyStr (dictGet kvs "active" (.bool false)) ++ "\n" ++
        "Nodes: " ++ toString n ++ "\n" ++
        "Created: " ++ pyStr (dictGet kvs "createdAt" .null) ++ "\n" ++
        "Updated: " ++ pyStr (dictGet kvs "updatedAt" .null))
  | other => .error (attrErrGet other)

/-- Embeds `handle_get_workflow`: requires a truthy `arguments.id`
(else HTTP 400), GETs the item endpoint and renders the detail text. -/
def handle_get_workflow (cfg : Config) (backend : Backend) (arguments : Json) :
    FlaskResponse × List BackendCall :=
  match arguments with
  | .obj args =>
    let workflow_id := dictGet args "id" .null
    if !(workflow_id.isTruthy) then
      (⟨400, .obj [("error", .str "Workflow ID is required")]⟩, [])
    else
      match make_n8n_request cfg backend "GET" ("/workflows/" ++ pyStr workflow_id) none with
      | (.error e, calls) => (⟨500, failGetBody e⟩, calls)
      | (.ok wf, calls) =>
        match getDetailText wf with
        | .ok t => (⟨200, contentBody t⟩, calls)
        | .error e => (⟨500, failGetBody e⟩, calls)
  | other => (⟨500, failGetBody (attrErrGet other)⟩, [])

/-! ### Dispatcher -/

/-- The static tool catalog returned by `handle_tools_list`. -/
def toolsCatalog : Json :=
  .obj [("tools", .arr [
    .obj [("name", .str "n8n_create_workflow"),
          ("description", .str "Create a new workflow in n8n"),
          ("inputSchema", .obj [
            ("type", .str "object"),
            ("properties", .obj [
              ("name", .obj [("type", .str "string"),
                             ("description", .str "Workflow name")]),
              ("nodes", .obj [("type", .str "array"),
                              ("description", .str "Array of workflow nodes")]),
              ("connections", .obj [("type", .str "object"),
                                    ("description", .str "Node connections")]),
              ("active", .obj [("type", .str "boolean"),
                               ("description", .str "Whether to activate the workflow")])]),
            ("required", .arr [.str "name", .str "nodes", .str "connections"])])],
    .obj [("name", .str "n8n_list_workflows"),
          ("description", .str "List all workflows in n8n"),
          ("inputSchema", .obj [
            ("type", .str "object"),
            ("properties", .obj []),
            ("required", .arr [])])],
    .obj [("name", .str "n8n_get_workflow"),
          ("description", .str "Get a specific workflow by ID"),
          ("inputSchema", .obj [
            ("type", .str "object"),
            ("properties", .obj [
              ("id", .obj [("type", .str "string"),
                           ("description", .str "Workflow ID")])]),
            ("required", .arr [.str "id"])])]])]

/-- Embeds `handle_tools_list`: the static catalog with HTTP 200. -/
def handle_tools_list : FlaskResponse := ⟨200, toolsCatalog⟩

/-- Embeds `handle_tool_call`: requires `params` (else HTTP 400), routes
by exact tool name, and answers unknown names with HTTP 400 naming the
tool.  A raised exception (`.error`) propagates to the dispatcher's
catch-all. -/
def handle_tool_call (cfg : Config) (backend : Backend) (mcp_data : Json) :
    Except String (FlaskResponse × List BackendCall) :=
  match pyIn "params" mcp_data with
  | .error e => .error e
  | .ok false => .ok (⟨400, .obj [("error", .str "Missing params in tool call")]⟩, [])
  | .ok true =>
    match pyIndexStr mcp_data "params" with
    | .error e => .error e
    | .ok params =>
      match params with
      | .obj pkvs =>
        let tool_name := dictGet pkvs "name" .null
        let arguments := dictGet pkvs "arguments" (.obj [])
        if jsonEqStr tool_name "n8n_create_workflow" then
          .ok (handle_create_workflow cfg backend arguments)
        else if jsonEqStr tool_name "n8n_list_workflows" then
          .ok (handle_list_workflows cfg backend)
        else if jsonEqStr tool_name "n8n_get_workflow" then
          .ok (handle_get_workflow cfg backend arguments)
        else
          .ok (⟨400, .obj [("error", .str ("Unknown tool: " ++ pyStr tool_name))]⟩, [])
      | other => .error (attrErrGet other)

/-- Routing and error conversion of `handle_mcp_request` after the
authentication check: parse failures and raised exceptions become HTTP
500 with the exception text, a missing `method` key HTTP 400, and an
unrecognized method HTTP 400 naming it. -/
def mcp_dispatch (cfg : Config) (backend : Backend) (body : Except String Json) :
    FlaskResponse × List BackendCall :=
  match body with
  | .error e => (⟨500, .obj [("error", .str e)]⟩, [])
  | .ok mcp_data =>
    match pyIn "method" mcp_data with
    | .error e => (⟨500, .obj [("error", .str e)]⟩, [])
    | .ok false => (⟨400, .obj [("error", .str "Invalid MCP request format")]⟩, [])
    | .ok true =>
      match pyIndexStr mcp_data "method" with
      | .error e => (⟨500, .obj [("error", .str e)]⟩, [])
      | .ok m =>
        if jsonEqStr m "tools/list" then (handle_tools_list, [])
        else if jsonEqStr m "tools/call" then
          match handle_tool_call cfg backend mcp_data with
          | .ok rc => rc
          | .error e => (⟨500, .obj [("error", .str e)]⟩, [])
        else (⟨400, .obj [("error", .str ("Unknown method: " ++ pyStr m))]⟩, [])

/-- Embeds the `/mcp` POST route `handle_mcp_request`: calls
`init_config` first (re-reading the environment), rejects
unauthenticated callers with a plain 401 before looking at the body,
then dispatches.  Returns the new module configuration, the response and
the backend calls issued. -/
def handle_mcp_request (env : Env) (backend : Backend) (authHeader : Option String)
    (body : Except String Json) : Config × FlaskResponse × List BackendCall :=
  if !(authenticate_request (init_config env).authToken authHeader) then
    (init_config env, ⟨401, .obj [("error", .str "Unauthorized")]⟩, [])
  else
    (init_config env, mcp_dispatch (init_config env) backend body)

/-- Embeds the `/health` GET route: a pure function of the module
configuration globals. -/
def health_check (cfg : Config) : FlaskResponse :=
  ⟨200, .obj [("status", .str "healthy"),
              ("service", .str "n8n-mcp-fixed"),
              ("n8n_configured", .bool (optTruthy cfg.n8nApiKey)),
              ("auth_configured", .bool (optTruthy cfg.authToken))]⟩

/-- Whether a backend call raises inside `make_n8n_request`: a transport
error, or an HTTP status in the 400–599 range. -/
def callFails (backend : Backend) (c : BackendCall) : Bool :=
  match backend c with
  | .error _ => true
  | .ok r => decide (400 ≤ r.statusCode ∧ r.statusCode < 600)

/-- The `HTTPError` message for a failing status, spelled as one string. -/
def httpFailText (status : Nat) (reason url : String) : String :=
  toString status ++ (if status < 500 then " Client Error: " else " Server Error: ") ++
    reason ++ " for url: " ++ url

/-! ### Fixtures used by witnesses and counterexamples -/

/-- A fully-populated configuration. -/
def cfgA : Config := ⟨some "http://n8n:5678", some "key", some "tok"⟩

/-- An environment with API key and auth token set. -/
def envA : Env := ⟨none, some "key", some "tok"⟩

/-- A backend whose every call fails at the transport level. -/
def nullBackend : Backend := fun _ => .error "connection refused"

/-- A backend that accepts creation (returning id `w1`) but answers
every other call, in particular the activation PUT, with HTTP 500. -/
def okBackend : Backend := fun c =>
  if c.method == "POST" then .ok ⟨200, "OK", "", Json.obj [("id", Json.str "w1")]⟩
  else .ok ⟨500, "Internal Server Error", "activation refused", Json.obj []⟩

/-- A backend answering every call with HTTP 500 and body text `boom`. -/
def failBackend : Backend := fun _ =>
  .ok ⟨500, "Internal Server Error", "boom", Json.null⟩

/-- A backend returning one workflow summary in `data`. -/
def listBackend : Backend := fun _ =>
  .ok ⟨200, "OK", "", Json.obj [("data", Json.arr
    [Json.obj [("id", Json.str "1"), ("name", Json.str "A"), ("active", Json.bool true)]])]⟩

/-- A backend returning a JSON object with no `data` key. -/
def noDataBackend : Backend := fun _ => .ok ⟨200, "OK", "", Json.obj []⟩

/-! ### Helper lemmas -/

/-- With an API key configured, `make_n8n_request` on a POST records the
single backend call and applies the status check to its result. -/
theorem make_post_eq (cfg : Config) (backend : Backend) (endpoint : String)
    (data : Option Json) (hkey : optTruthy cfg.n8nApiKey = true) :
    make_n8n_request cfg backend "POST" endpoint data =
      (requestOutcome (backend ⟨"POST", endpoint, data⟩) (urlOf cfg endpoint),
       [⟨"POST", endpoint, data⟩]) := by
  unfold make_n8n_request
  rw [hkey]
  rfl

/-- With an API key configured, `make_n8n_request` on a PUT records the
single backend call and applies the status check to its result. -/
theorem make_put_eq (cfg : Config) (backend : Backend) (endpoint : String)
    (data : Option Json) (hkey : optTruthy cfg.n8nApiKey = true) :
    make_n8n_request cfg backend "PUT" endpoint data =
      (requestOutcome (backend ⟨"PUT", endpoint, data⟩) (urlOf cfg endpoint),
       [⟨"PUT", endpoint, data⟩]) := by
  unfold make_n8n_request
  rw [hkey]
  rfl

/-- With an API key configured, `make_n8n_request` on a GET records the
single body-less backend call and applies the status check. -/
theorem make_get_eq (cfg : Config) (backend : Backend) (endpoint : String)
    (data : Option Json) (hkey : optTruthy cfg.n8nApiKey = true) :
    make_n8n_request cfg backend "GET" endpoint data =
      (requestOutcome (backend ⟨"GET", endpoint, none⟩) (urlOf cfg endpoint),
       [⟨"GET", endpoint, none⟩]) := by
  unfold make_n8n_request
  rw [hkey]
  rfl

/-- Statuses below 400 pass `raise_for_status`. -/
theorem http_error_msg_none (status : Nat) (reason url : String) (h : status < 400) :
    http_error_msg status reason url = none := by
  have h1 : ¬(400 ≤ status ∧ status < 500) := by omega
  have h2 : ¬(500 ≤ status ∧ status < 600) := by omega
  simp [http_error_msg, h1, h2]

/-- Statuses in 400–599 make `raise_for_status` raise with the
status/reason/url message. -/
theorem http_error_msg_some (status : Nat) (reason url : String)
    (h4 : 400 ≤ status) (h6 : status < 600) :
    http_error_msg status reason url = some (httpFailText status reason url) := by
  rcases Nat.lt_or_ge status 500 with h5 | h5
  · have h1 : 400 ≤ status ∧ status < 500 := ⟨h4, h5⟩
    simp [http_error_msg, httpFailText, h1, h5]
  · have h1 : ¬(400 ≤ status ∧ status < 500) := by omega
    have h2 : 500 ≤ status ∧ status < 600 := ⟨h5, h6⟩
    have h5' : ¬(status < 500) := by omega
    simp [http_error_msg, httpFailText, h1, h2, h5']

/-- A response with a passing status yields its parsed body. -/
theorem requestOutcome_ok (resp : HttpResponse) (url : String)
    (hst : resp.statusCode < 400) :
    requestOutcome (.ok resp) url = .ok resp.body := by
  show (match http_error_msg resp.statusCode resp.reason url with
        | some msg => Except.error msg
        | none => Except.ok resp.body) = Except.ok resp.body
  rw [http_error_msg_none resp.statusCode resp.reason url hst]

/-- A response with a failing status raises the `HTTPError` message. -/
theorem requestOutcome_err (resp : HttpResponse) (url : String)
    (h4 : 400 ≤ resp.statusCode) (h6 : resp.statusCode < 600) :
    requestOutcome (.ok resp) url =
      .error (httpFailText resp.statusCode resp.reason url) := by
  show (match http_error_msg resp.statusCode resp.reason url with
        | some msg => Except.error msg
        | none => Except.ok resp.body) = Except.error (httpFailText resp.statusCode resp.reason url)
  rw [http_error_msg_some resp.statusCode resp.reason url h4 h6]

/-! ### Claims -/

/-- C3: a POST to `/mcp` whose `Authorization` header is absent, or for
which no gateway token is configured (unset or empty), or whose header
value after stripping an optional `Bearer ` prefix differs from the
configured token, is answered with HTTP 401 and the plain body
`{error: "Unauthorized"}`, with zero backend calls and without looking
at the request body; in particular an unconfigured token rejects every
caller. -/
theorem mcp_auth_failure_401 (env : Env) (backend : Backend)
    (authHeader : Option String) (body : Except String Json)
    (h : authHeader = none ∨ env.authTokenVar = none ∨ env.authTokenVar = some "" ∨
         stripBearer (authHeader.getD "") ≠ env.authTokenVar.getD "") :
    (handle_mcp_request env backend authHeader body).2 =
      (⟨401, Json.obj [("error", Json.str "Unauthorized")]⟩, []) := by
  have hauth : authenticate_request (init_config env).authToken authHeader = false := by
    show authenticate_request env.authTokenVar authHeader = false
    unfold authenticate_request
    rcases h with h | h | h | h
    · subst h; rfl
    · rw [h]; simp [optTruthy]
    · rw [h]; simp [optTruthy]
    · split
      · rfl
      · exact beq_eq_false_iff_ne.mpr h
  unfold handle_mcp_request
  rw [hauth]
  rfl

/-- C3 witness: with no `AUTH_TOKEN` configured, a bearer-carrying
request is rejected with the plain 401 body and no backend call. -/
theorem mcp_auth_failure_401_witness :
    (handle_mcp_request ⟨none, none, none⟩ nullBackend (some "Bearer x") (.ok Json.null)).2 =
      (⟨401, Json.obj [("error", Json.str "Unauthorized")]⟩, []) :=
  mcp_auth_failure_401 ⟨none, none, none⟩ nullBackend (some "Bearer x") (.ok Json.null)
    (Or.inr (Or.inl rfl))

/-- C10: every POST to `/mcp` re-reads the configuration from the
environment (the resulting module globals are exactly `init_config`'s
output, whatever they were before), and since the module globals start
as `None`, `GET /health` answered before the first such POST reports
`n8n_configured: false` and `auth_configured: false`. -/
theorem config_reread_each_request :
    (∀ (env : Env) (backend : Backend) (authHeader : Option String)
        (body : Except String Json),
      (handle_mcp_request env backend authHeader body).1 = init_config env) ∧
    health_check initialConfig =
      ⟨200, Json.obj [("status", Json.str "healthy"),
                      ("service", Json.str "n8n-mcp-fixed"),
                      ("n8n_configured", Json.bool false),
                      ("auth_configured", Json.bool false)]⟩ := by
  constructor
  · intro env backend authHeader body
    unfold handle_mcp_request
    split <;> rfl
  · rfl

/-- C1: the creation payload POSTed by `n8n_create_workflow` has exactly
the keys `name` (default `Untitled Workflow`), `nodes` (default `[]`),
`connections` (default an empty mapping) and the fixed `settings`
object; `active` is never among its keys; and when `arguments.active` is
absent or falsy, that POST is the only backend call issued. -/
theorem create_workflow_single_post (cfg : Config) (backend : Backend)
    (args : List (String × Json)) (hkey : optTruthy cfg.n8nApiKey = true) :
    ((dictGet args "active" (Json.bool false)).isTruthy = false →
      (handle_create_workflow cfg backend (Json.obj args)).2 =
        [⟨"POST", "/workflows", some (createPayload args)⟩]) ∧
    (handle_create_workflow cfg backend (Json.obj args)).2.head? =
      some ⟨"POST", "/workflows", some (createPayload args)⟩ ∧
    jsonKeys (createPayload args) = ["name", "nodes", "connections", "settings"] ∧
    jsonFind (createPayload args) "active" = none ∧
    jsonFind (createPayload args) "settings" = some settingsJson ∧
    (dictFind args "name" = none →
      jsonFind (createPayload args) "name" = some (Json.str "Untitled Workflow")) ∧
    (dictFind args "nodes" = none →
      jsonFind (createPayload args) "nodes" = some (Json.arr [])) ∧
    (dictFind args "connections" = none →
      jsonFind (createPayload args) "connections" = some (Json.obj [])) := by
  have hmk := make_post_eq cfg backend "/workflows" (some (createPayload args)) hkey
  refine ⟨?_, ?_, rfl, rfl, rfl, ?_, ?_, ?_⟩
  · intro hact
    simp only [handle_create_workflow]
    rw [hmk]
    cases hout : requestOutcome (backend ⟨"POST", "/workflows", some (createPayload args)⟩)
        (urlOf cfg "/workflows") with
    | error e => rfl
    | ok wf =>
      simp only []
      simp [hact]
  · simp only [handle_create_workflow]
    rw [hmk]
    cases hout : requestOutcome (backend ⟨"POST", "/workflows", some (createPayload args)⟩)
        (urlOf cfg "/workflows") with
    | error e => rfl
    | ok wf =>
      simp only []
      cases hact : (dictGet args "active" (Json.bool false)).isTruthy with
      | false => simp [hact]
      | true =>
        simp only [hact]
        rw [if_pos trivial]
        cases hin : pyIn "id" wf with
        | error e => simp [hin]
        | ok b =>
          cases b with
          | false => simp [hin]
          | true =>
            simp only [hin]
            cases hix : pyIndexStr wf "id" with
            | error e => simp [hix]
            | ok idv =>
              simp only [hix]
              rw [make_put_eq cfg backend ("/workflows/" ++ pyStr idv)
                (some (Json.obj [("active", Json.bool true)])) hkey]
              cases hput : requestOutcome (backend ⟨"PUT", "/workflows/" ++ pyStr idv,
                  some (Json.obj [("active", Json.bool true)])⟩)
                  (urlOf cfg ("/workflows/" ++ pyStr idv)) with
              | error e => simp
              | ok wf2 => simp
  · intro h
    show some (dictGet args "name" (Json.str "Untitled Workflow")) =
      some (Json.str "Untitled Workflow")
    rw [dictGet, h]
    rfl
  · intro h
    show some (dictGet args "nodes" (Json.arr [])) = some (Json.arr [])
    rw [dictGet, h]
    rfl
  · intro h
    show some (dictGet args "connections" (Json.obj [])) = some (Json.obj [])
    rw [dictGet, h]
    rfl

/-- C1 witness: with no arguments at all, exactly one POST carrying the
all-defaults payload is issued. -/
theorem create_workflow_single_post_witness :
    optTruthy cfgA.n8nApiKey = true ∧
    (dictGet [] "active" (Json.bool false)).isTruthy = false ∧
    (handle_create_workflow cfgA okBackend (Json.obj [])).2 =
      [⟨"POST", "/workflows", some (createPayload [])⟩] :=
  ⟨rfl, rfl, (create_workflow_single_post cfgA okBackend [] rfl).1 rfl⟩

/-- C2: with `arguments.active = true`, an API key configured, and a
creation POST that succeeds with a JSON object containing an `id`,
exactly two backend calls are issued — the POST, then a PUT of
`{active: true}` to that id's item endpoint — and when that PUT fails
(transport error or status 400–599) the overall result is still the
HTTP 200 success text naming the created workflow's id. -/
theorem create_workflow_activation (cfg : Config) (backend : Backend)
    (args : List (String × Json)) (resp : HttpResponse)
    (kvs : List (String × Json)) (idv : Json)
    (hkey : optTruthy cfg.n8nApiKey = true)
    (hact : dictGet args "active" (Json.bool false) = Json.bool true)
    (hpost : backend ⟨"POST", "/workflows", some (createPayload args)⟩ = .ok resp)
    (hst : resp.statusCode < 400)
    (hbody : resp.body = Json.obj kvs)
    (hid : dictFind kvs "id" = some idv) :
    (handle_create_workflow cfg backend (Json.obj args)).2 =
      [⟨"POST", "/workflows", some (createPayload args)⟩,
       ⟨"PUT", "/workflows/" ++ pyStr idv, some (Json.obj [("active", Json.bool true)])⟩] ∧
    (callFails backend
        ⟨"PUT", "/workflows/" ++ pyStr idv, some (Json.obj [("active", Json.bool true)])⟩ = true →
      (handle_create_workflow cfg backend (Json.obj args)).1 =
        ⟨200, contentBody ("Successfully created workflow " ++ sq ++
          pyStr (dictGet args "name" (Json.str "Untitled Workflow")) ++ sq ++
          " with ID: " ++ pyStr idv)⟩) := by
  have hmk : make_n8n_request cfg backend "POST" "/workflows" (some (createPayload args)) =
      (.ok (Json.obj kvs), [⟨"POST", "/workflows", some (createPayload args)⟩]) := by
    rw [make_post_eq cfg backend "/workflows" (some (createPayload args)) hkey, hpost,
        requestOutcome_ok resp (urlOf cfg "/workflows") hst, hbody]
  have hin : pyIn "id" (Json.obj kvs) = .ok true := by
    show Except.ok (dictFind kvs "id").isSome = Except.ok true
    rw [hid]
    rfl
  have hix : pyIndexStr (Json.obj kvs) "id" = .ok idv := by
    show (match dictFind kvs "id" with
          | some v => Except.ok v
          | none => Except.error (sq ++ "id" ++ sq)) = Except.ok idv
    rw [hid]
  have hputeq := make_put_eq cfg backend ("/workflows/" ++ pyStr idv)
    (some (Json.obj [("active", Json.bool true)])) hkey
  constructor
  · simp only [handle_create_workflow]
    rw [hmk]
    simp only [hact, Json.isTruthy]
    rw [if_pos (by trivial)]
    simp only [hin]
    simp only [hix]
    rw [hputeq]
    cases hput : requestOutcome (backend ⟨"PUT", "/workflows/" ++ pyStr idv,
        some (Json.obj [("active", Json.bool true)])⟩)
        (urlOf cfg ("/workflows/" ++ pyStr idv)) with
    | error e => rfl
    | ok wf2 => rfl
  · intro hfail
    simp only [handle_create_workflow]
    rw [hmk]
    simp only [hact, Json.isTruthy]
    rw [if_pos (by trivial)]
    simp only [hin]
    simp only [hix]
    rw [hputeq]
    unfold callFails at hfail
    cases hput : backend ⟨"PUT", "/workflows/" ++ pyStr idv,
        some (Json.obj [("active", Json.bool true)])⟩ with
    | error e =>
      simp only [hput, requestOutcome]
      simp only [createSuccessResp, dictGet, hid, Option.getD_some]
    | ok r2 =>
      rw [hput] at hfail
      simp only [decide_eq_true_eq] at hfail
      simp only [hput,
        requestOutcome_err r2 (urlOf cfg ("/workflows/" ++ pyStr idv)) hfail.1 hfail.2]
      simp only [createSuccessResp, dictGet, hid, Option.getD_some]

/-- C2 witness: creating `Test` with `active=true` against a backend
that accepts the POST (id `w1`) and rejects the activation PUT with HTTP
500 still issues POST-then-PUT and returns the 200 success text. -/
theorem create_workflow_activation_witness :
    (handle_create_workflow cfgA okBackend
        (Json.obj [("name", Json.str "Test"), ("active", Json.bool true)])).2 =
      [⟨"POST", "/workflows",
        some (createPayload [("name", Json.str "Test"), ("active", Json.bool true)])⟩,
       ⟨"PUT", "/workflows/w1", some (Json.obj [("active", Json.bool true)])⟩] ∧
    (handle_create_workflow cfgA okBackend
        (Json.obj [("name", Json.str "Test"), ("active", Json.bool true)])).1 =
      ⟨200, contentBody ("Successfully created workflow " ++ sq ++ "Test" ++ sq ++
        " with ID: " ++ "w1")⟩ := by
  have h := create_workflow_activation cfgA okBackend
    [("name", Json.str "Test"), ("active", Json.bool true)]
    ⟨200, "OK", "", Json.obj [("id", Json.str "w1")]⟩
    [("id", Json.str "w1")] (Json.str "w1")
    rfl rfl rfl (by decide) rfl rfl
  exact ⟨h.1, h.2 rfl⟩

/-- C5 (amended): when the creation POST comes back with a failing HTTP
status (400–599, in particular 500), no activation PUT is attempted —
the POST is the only backend call — and the handler returns HTTP 500
whose content text is `Failed to create workflow: ` followed by the
`HTTPError` message, which carries the status code, reason phrase and
URL of the failed call (not the backend's response body text). -/
theorem create_workflow_backend_error (cfg : Config) (backend : Backend)
    (args : List (String × Json)) (resp : HttpResponse)
    (hkey : optTruthy cfg.n8nApiKey = true)
    (hpost : backend ⟨"POST", "/workflows", some (createPayload args)⟩ = .ok resp)
    (h4 : 400 ≤ resp.statusCode) (h6 : resp.statusCode < 600) :
    handle_create_workflow cfg backend (Json.obj args) =
      (⟨500, failCreateBody
          (httpFailText resp.statusCode resp.reason (urlOf cfg "/workflows"))⟩,
       [⟨"POST", "/workflows", some (createPayload args)⟩]) := by
  have hmk : make_n8n_request cfg backend "POST" "/workflows" (some (createPayload args)) =
      (.error (httpFailText resp.statusCode resp.reason (urlOf cfg "/workflows")),
       [⟨"POST", "/workflows", some (createPayload args)⟩]) := by
    rw [make_post_eq cfg backend "/workflows" (some (createPayload args)) hkey, hpost,
        requestOutcome_err resp (urlOf cfg "/workflows") h4 h6]
  simp only [handle_create_workflow]
  rw [hmk]

/-- C5 witness: the `HTTPError`-shaped failure for a backend answering
the creation POST with HTTP 500. -/
theorem create_workflow_backend_error_witness :
    handle_create_workflow cfgA failBackend (Json.obj [("active", Json.bool true)]) =
      (⟨500, failCreateBody (httpFailText 500 "Internal Server Error"
          (urlOf cfgA "/workflows"))⟩,
       [⟨"POST", "/workflows", some (createPayload [("active", Json.bool true)])⟩]) :=
  create_workflow_backend_error cfgA failBackend [("active", Json.bool true)]
    ⟨500, "Internal Server Error", "boom", Json.null⟩ rfl rfl (by decide) (by decide)

/-- C5 counterexample: with the backend answering the creation POST with
HTTP 500 and response body text `boom`, the handler's 500 content text
is the `HTTPError` message (status, reason, URL) and does not contain
the backend's response body text `boom`, contrary to the claim. -/
theorem create_workflow_backend_error_cex :
    (handle_create_workflow cfgA failBackend (Json.obj [("active", Json.bool true)])).1 =
      ⟨500, contentBody ("Failed to create workflow: " ++
        "500 Server Error: Internal Server Error for url: http://n8n:5678/api/v1/workflows")⟩ ∧
    (handle_create_workflow cfgA failBackend (Json.obj [("active", Json.bool true)])).2 =
      [⟨"POST", "/workflows", some (createPayload [("active", Json.bool true)])⟩] ∧
    strContains ("Failed to create workflow: " ++
      "500 Server Error: Internal Server Error for url: http://n8n:5678/api/v1/workflows")
      "boom" = false ∧
    strContains "boom stuff" "boom" = true := by
  exact ⟨rfl, rfl, by decide, by decide⟩

/-- After a successful authentication, the `/mcp` response is exactly
the dispatcher's. -/
theorem handle_mcp_request_auth_ok (env : Env) (backend : Backend)
    (authHeader : Option String) (body : Except String Json)
    (hauth : authenticate_request (init_config env).authToken authHeader = true) :
    (handle_mcp_request env backend authHeader body).2 =
      mcp_dispatch (init_config env) backend body := by
  unfold handle_mcp_request
  rw [hauth]
  rfl

/-- C4 (amended): an authenticated POST to `/mcp` whose envelope has
`method = "initialize"` is answered by the unknown-method error — HTTP
400 with body `{error: "Unknown method: initialize"}` — and no backend
call; the dispatcher routes only `tools/list` and `tools/call` and has
no initialize branch. -/
theorem initialize_unknown_method (env : Env) (backend : Backend)
    (authHeader : Option String) (kvs : List (String × Json))
    (hauth : authenticate_request (init_config env).authToken authHeader = true)
    (hm : dictFind kvs "method" = some (Json.str "initialize")) :
    (handle_mcp_request env backend authHeader (.ok (Json.obj kvs))).2 =
      (⟨400, Json.obj [("error", Json.str "Unknown method: initialize")]⟩, []) := by
  rw [handle_mcp_request_auth_ok env backend authHeader (.ok (Json.obj kvs)) hauth]
  simp only [mcp_dispatch, pyIn, hm, Option.isSome_some, pyIndexStr]
  rfl

/-- C4 witness: an authenticated concrete `initialize` envelope gets the
unknown-method 400 error with zero backend calls. -/
theorem initialize_unknown_method_witness :
    authenticate_request (init_config envA).authToken (some "Bearer tok") = true ∧
    (handle_mcp_request envA nullBackend (some "Bearer tok")
        (.ok (Json.obj [("method", Json.str "initialize")]))).2 =
      (⟨400, Json.obj [("error", Json.str "Unknown method: initialize")]⟩, []) :=
  ⟨rfl, initialize_unknown_method envA nullBackend (some "Bearer tok")
    [("method", Json.str "initialize")] rfl rfl⟩

/-- C4 counterexample: the authenticated `initialize` request is
answered with HTTP 400 and the plain unknown-method error body — not a
capabilities/server-info success result, contrary to the claim. -/
theorem initialize_rejected_cex :
    (handle_mcp_request envA nullBackend (some "Bearer tok")
        (.ok (Json.obj [("method", Json.str "initialize")]))).2 =
      (⟨400, Json.obj [("error", Json.str "Unknown method: initialize")]⟩, []) := rfl

/-- C6 (amended): an authenticated `tools/call` whose `params.name` is
none of the three supported tools is answered with HTTP 400 and the
plain body `{error: "Unknown tool: <name>"}` — no JSON-RPC `code` field
— and zero backend calls. -/
theorem unknown_tool_400 (env : Env) (backend : Backend) (authHeader : Option String)
    (kvs pkvs : List (String × Json)) (t : String)
    (hauth : authenticate_request (init_config env).authToken authHeader = true)
    (hm : dictFind kvs "method" = some (Json.str "tools/call"))
    (hp : dictFind kvs "params" = some (Json.obj pkvs))
    (hn : dictFind pkvs "name" = some (Json.str t))
    (h1 : t ≠ "n8n_create_workflow") (h2 : t ≠ "n8n_list_workflows")
    (h3 : t ≠ "n8n_get_workflow") :
    (handle_mcp_request env backend authHeader (.ok (Json.obj kvs))).2 =
      (⟨400, Json.obj [("error", Json.str ("Unknown tool: " ++ t))]⟩, []) := by
  rw [handle_mcp_request_auth_ok env backend authHeader (.ok (Json.obj kvs)) hauth]
  simp only [mcp_dispatch, pyIn, hm, Option.isSome_some, pyIndexStr]
  simp only [jsonEqStr]
  rw [if_neg (by decide), if_pos (by decide)]
  simp only [handle_tool_call, pyIn, hp, Option.isSome_some, pyIndexStr, dictGet, hn,
    Option.getD_some, jsonEqStr]
  rw [if_neg (by simp [h1]), if_neg (by simp [h2]), if_neg (by simp [h3])]
  rfl

/-- C6 witness: tool name `bogus` yields the 400 unknown-tool response
with no backend call. -/
theorem unknown_tool_400_witness :
    (handle_mcp_request envA nullBackend (some "Bearer tok")
        (.ok (Json.obj [("method", Json.str "tools/call"),
                        ("params", Json.obj [("name", Json.str "bogus")])]))).2 =
      (⟨400, Json.obj [("error", Json.str ("Unknown tool: " ++ "bogus"))]⟩, []) :=
  unknown_tool_400 envA nullBackend (some "Bearer tok")
    [("method", Json.str "tools/call"), ("params", Json.obj [("name", Json.str "bogus")])]
    [("name", Json.str "bogus")] "bogus"
    rfl rfl rfl rfl (by decide) (by decide) (by decide)

/-- C6 counterexample: the unknown-tool response body is exactly the
one-key object `{error: "Unknown tool: bogus"}`; the integer `-32601`
occurs nowhere in it, contrary to the claim that the response carries
JSON-RPC code `-32601`. -/
theorem unknown_tool_no_code_cex :
    (handle_mcp_request envA nullBackend (some "Bearer tok")
        (.ok (Json.obj [("method", Json.str "tools/call"),
                        ("params", Json.obj [("name", Json.str "bogus")])]))).2 =
      (⟨400, Json.obj [("error", Json.str "Unknown tool: bogus")]⟩, []) ∧
    jsonHasNum (-32601) (Json.obj [("error", Json.str "Unknown tool: bogus")]) = false ∧
    jsonHasNum (-32601) (Json.obj [("code", Json.num (-32601))]) = true := by
  exact ⟨rfl, rfl, rfl⟩

/-- C7 (amended): an authenticated `tools/call` whose envelope lacks the
`params` key is answered with HTTP 400 and the plain body
`{error: "Missing params in tool call"}` — no JSON-RPC `code` field —
and zero backend calls. -/
theorem missing_params_400 (env : Env) (backend : Backend) (authHeader : Option String)
    (kvs : List (String × Json))
    (hauth : authenticate_request (init_config env).authToken authHeader = true)
    (hm : dictFind kvs "method" = some (Json.str "tools/call"))
    (hp : dictFind kvs "params" = none) :
    (handle_mcp_request env backend authHeader (.ok (Json.obj kvs))).2 =
      (⟨400, Json.obj [("error", Json.str "Missing params in tool call")]⟩, []) := by
  rw [handle_mcp_request_auth_ok env backend authHeader (.ok (Json.obj kvs)) hauth]
  simp only [mcp_dispatch, pyIn, hm, Option.isSome_some, pyIndexStr]
  simp only [jsonEqStr]
  rw [if_neg (by decide), if_pos (by decide)]
  simp only [handle_tool_call, pyIn, hp, Option.isSome_none]

/-- C7 witness: an envelope with `method = "tools/call"` and no `params`
key yields the 400 missing-params response and no backend call. -/
theorem missing_params_400_witness :
    (handle_mcp_request envA nullBackend (some "Bearer tok")
        (.ok (Json.obj [("method", Json.str "tools/call")]))).2 =
      (⟨400, Json.obj [("error", Json.str "Missing params in tool call")]⟩, []) :=
  missing_params_400 envA nullBackend (some "Bearer tok")
    [("method", Json.str "tools/call")] rfl rfl rfl

/-- C7 counterexample: the missing-params response body is exactly the
one-key object `{error: "Missing params in tool call"}`; the integer
`-32602` occurs nowhere in it, contrary to the claim that the response
carries JSON-RPC code `-32602`. -/
theorem missing_params_no_code_cex :
    (handle_mcp_request envA nullBackend (some "Bearer tok")
        (.ok (Json.obj [("method", Json.str "tools/call")]))).2 =
      (⟨400, Json.obj [("error", Json.str "Missing params in tool call")]⟩, []) ∧
    jsonHasNum (-32602) (Json.obj [("error", Json.str "Missing params in tool call")]) = false ∧
    jsonHasNum (-32602) (Json.obj [("code", Json.num (-32602))]) = true := by
  exact ⟨rfl, rfl, rfl⟩

/-- C8: when the collection GET succeeds with a JSON object, then (a) if
its `data` key holds an array whose elements all project (via
`projectWorkflow`, keeping `id`, `name`, `active`, `createdAt`,
`updatedAt`), the response is HTTP 200 whose text is the count line
followed by one `- <name> (ID: <id>, Active: <active>)` line per
workflow, newline-joined; and (b) if the `data` key is absent, the
response is the count-0 success, not an error.  Exactly one backend call
(the GET) is issued in both cases. -/
theorem list_workflows_result (cfg : Config) (backend : Backend)
    (resp : HttpResponse) (dkvs : List (String × Json))
    (hkey : optTruthy cfg.n8nApiKey = true)
    (hget : backend ⟨"GET", "/workflows", none⟩ = .ok resp)
    (hst : resp.statusCode < 400)
    (hbody : resp.body = Json.obj dkvs) :
    (∀ (ws : List Json) (pws : List (List (String × Json))),
      dictFind dkvs "data" = some (Json.arr ws) →
      ws.mapM projectWorkflow = Except.ok pws →
      handle_list_workflows cfg backend =
        (⟨200, contentBody (listText pws)⟩, [⟨"GET", "/workflows", none⟩])) ∧
    (dictFind dkvs "data" = none →
      handle_list_workflows cfg backend =
        (⟨200, contentBody "Found 0 workflows:\n"⟩, [⟨"GET", "/workflows", none⟩])) := by
  have hmk : make_n8n_request cfg backend "GET" "/workflows" none =
      (.ok (Json.obj dkvs), [⟨"GET", "/workflows", none⟩]) := by
    rw [make_get_eq cfg backend "/workflows" none hkey, hget,
        requestOutcome_ok resp (urlOf cfg "/workflows") hst, hbody]
  constructor
  · intro ws pws hdata hproj
    simp only [handle_list_workflows]
    rw [hmk]
    simp only [pyIn, hdata, Option.isSome_some, pyIndexStr, pyIterate, hproj]
  · intro hdata
    simp only [handle_list_workflows]
    rw [hmk]
    simp only [pyIn, hdata, Option.isSome_none]
    rfl

/-- C8 witness: one workflow is rendered as its summary line, and a
`data`-less backend object yields the count-0 success. -/
theorem list_workflows_result_witness :
    handle_list_workflows cfgA listBackend =
      (⟨200, contentBody ("Found 1 workflows:\n" ++ "- A (ID: 1, Active: True)")⟩,
       [⟨"GET", "/workflows", none⟩]) ∧
    handle_list_workflows cfgA noDataBackend =
      (⟨200, contentBody "Found 0 workflows:\n"⟩, [⟨"GET", "/workflows", none⟩]) := by
  constructor
  · exact (list_workflows_result cfgA listBackend
      ⟨200, "OK", "", Json.obj [("data", Json.arr [Json.obj
        [("id", Json.str "1"), ("name", Json.str "A"), ("active", Json.bool true)]])]⟩
      [("data", Json.arr [Json.obj
        [("id", Json.str "1"), ("name", Json.str "A"), ("active", Json.bool true)]])]
      rfl rfl (by decide) rfl).1
      [Json.obj [("id", Json.str "1"), ("name", Json.str "A"), ("active", Json.bool true)]]
      [[("id", Json.str "1"), ("name", Json.str "A"), ("active", Json.bool true),
        ("createdAt", Json.null), ("updatedAt", Json.null)]]
      rfl rfl
  · exact (list_workflows_result cfgA noDataBackend ⟨200, "OK", "", Json.obj []⟩ []
      rfl rfl (by decide) rfl).2 rfl

/-- C9 (amended): for an authenticated POST whose body is valid JSON but
not an object, the outcome depends on the value's type: a `null` body
makes the `method` membership test raise `TypeError`, giving HTTP 500
with that message; arrays and strings support the `in` operator, so an
array without a `"method"` element (or a string without the substring
`method`) gets the ordinary HTTP 400 invalid-request response, and an
array containing `"method"` passes the test and then fails the `[]`
indexing, giving HTTP 500 with the list-index `TypeError` text. -/
theorem non_object_body_dispatch (env : Env) (backend : Backend)
    (authHeader : Option String)
    (hauth : authenticate_request (init_config env).authToken authHeader = true) :
    ((handle_mcp_request env backend authHeader (.ok Json.null)).2 =
      (⟨500, Json.obj [("error", Json.str ("argument of type " ++ sq ++ "NoneType" ++ sq ++
        " is not iterable"))]⟩, [])) ∧
    (∀ xs : List Json, xs.any (fun x => jsonEqStr x "method") = false →
      (handle_mcp_request env backend authHeader (.ok (Json.arr xs))).2 =
        (⟨400, Json.obj [("error", Json.str "Invalid MCP request format")]⟩, [])) ∧
    (∀ s : String, strContains s "method" = false →
      (handle_mcp_request env backend authHeader (.ok (Json.str s))).2 =
        (⟨400, Json.obj [("error", Json.str "Invalid MCP request format")]⟩, [])) ∧
    (∀ xs : List Json, xs.any (fun x => jsonEqStr x "method") = true →
      (handle_mcp_request env backend authHeader (.ok (Json.arr xs))).2 =
        (⟨500, Json.obj [("error",
          Json.str "list indices must be integers or slices, not str")]⟩, [])) := by
  refine ⟨?_, ?_, ?_, ?_⟩
  · rw [handle_mcp_request_auth_ok env backend authHeader (.ok Json.null) hauth]
    rfl
  · intro xs hxs
    rw [handle_mcp_request_auth_ok env backend authHeader (.ok (Json.arr xs)) hauth]
    simp only [mcp_dispatch, pyIn, hxs]
  · intro s hs
    rw [handle_mcp_request_auth_ok env backend authHeader (.ok (Json.str s)) hauth]
    simp only [mcp_dispatch, pyIn, hs]
  · intro xs hxs
    rw [handle_mcp_request_auth_ok env backend authHeader (.ok (Json.arr xs)) hauth]
    simp only [mcp_dispatch, pyIn, hxs, pyIndexStr]

/-- C9 witness: both 500 cases and the 400 case at concrete bodies. -/
theorem non_object_body_dispatch_witness :
    (handle_mcp_request envA nullBackend (some "Bearer tok") (.ok Json.null)).2 =
      (⟨500, Json.obj [("error", Json.str ("argument of type " ++ sq ++ "NoneType" ++ sq ++
        " is not iterable"))]⟩, []) ∧
    (handle_mcp_request envA nullBackend (some "Bearer tok")
        (.ok (Json.arr [Json.str "method"]))).2 =
      (⟨500, Json.obj [("error",
        Json.str "list indices must be integers or slices, not str")]⟩, []) := by
  have h := non_object_body_dispatch envA nullBackend (some "Bearer tok") rfl
  exact ⟨h.1, h.2.2.2 [Json.str "method"] rfl⟩

/-- C9 counterexample: a JSON array body (here `[]`) is answered with
the HTTP 400 invalid-request response, not the HTTP 500 internal error
the claim predicts for every non-object body. -/
theorem non_object_body_cex :
    (handle_mcp_request envA nullBackend (some "Bearer tok") (.ok (Json.arr []))).2 =
      (⟨400, Json.obj [("error", Json.str "Invalid MCP request format")]⟩, []) := rfl

end N8n
